import Mathlib

/-!
# Verification of the Telegram Deployment Automation Bot core

Shallow embedding of the deployment orchestration core of the repository
(`bot/deployment.py`, `bot/bot.py`, `bot/config.py`, `bot/rbac.py`) and
proofs of the specified properties.

Modelling conventions:
* Subprocess output is modelled after the UTF-8 permissive decode at the
  pipe boundary: a process behaviour is either a list of already-decoded
  raw lines together with an exit code, or a fault (exception) occurring
  after some lines were already produced.  The Python `rstrip()` applied
  to each decoded line is modelled explicitly (`pyRstrip`).
* Python exceptions that the code deliberately lets escape are modelled
  with `Except`; exceptions the code converts into output lines are part
  of the returned line list.
* `os.environ` is modelled as a total function `String → String` with the
  empty-string default of `os.environ.get(key, "")` folded in; the
  filesystem as `String → Option String` (`none` = `FileNotFoundError`);
  HTTP as `String → Option Nat` (`none` = connection fault, `some s` =
  response status `s`).
-/

/-- Python whitespace characters stripped by `str.rstrip()` / `str.strip()`
(ASCII fragment). -/
def isPyWhitespace (c : Char) : Bool :=
  c = ' ' || c = '\t' || c = '\n' || c = '\x0d' || c = '\x0b' || c = '\x0c'

/-- Python `str.rstrip()`: drop trailing whitespace. -/
def pyRstrip (s : String) : String :=
  String.mk ((s.data.reverse.dropWhile isPyWhitespace).reverse)

/-- Python `str.strip()`: drop leading and trailing whitespace. -/
def pyStrip (s : String) : String :=
  String.mk
    (((s.data.dropWhile isPyWhitespace).reverse.dropWhile isPyWhitespace).reverse)

/-- Lowercase hexadecimal digit, the character class `[0-9a-f]` of
`_COMMIT_RE` in `deployment.py`. -/
def isLowerHexDigit (c : Char) : Bool :=
  ('0' ≤ c && c ≤ '9') || ('a' ≤ c && c ≤ 'f')

/-- A character list consisting of 4 to 40 lowercase hex digits. -/
def isHexBody (l : List Char) : Bool :=
  decide (4 ≤ l.length) && decide (l.length ≤ 40) && l.all isLowerHexDigit

/-- `_COMMIT_RE.match(s)` for `_COMMIT_RE = re.compile(r'^[0-9a-f]\x7b4,40\x7d$')`:
Python `$` also matches just before a single trailing newline, so the
match succeeds on a 4-40 hex-digit string optionally followed by one
final newline character. -/
def commit_re_match (s : String) : Bool :=
  isHexBody s.data ||
    (match s.data.getLast? with
     | some c => c = '\n' && isHexBody s.data.dropLast
     | none => false)

/-- `_VALID_ENVS = frozenset({"staging", "production"})` in `deployment.py`. -/
def VALID_ENVS : List String := ["staging", "production"]

/-- Behaviour of one external script invocation, seen from the generator in
`deployment.py`: either the process emits raw output lines and exits with a
code, or an exception fires (at launch or while reading the pipe) after some
raw lines were already yielded. -/
inductive ProcBehavior where
  | runs (output : List String) (exitCode : Int)
  | faults (output : List String) (msg : String)
deriving DecidableEq, Repr

/-- Errors raised by the validation at the top of `run_deployment` /
`run_rollback` (Python `AssertionError`s, named after the spec taxonomy). -/
inductive DeployError where
  | invalidEnvironment (environment : String)
  | invalidCommit (commit : String)
deriving DecidableEq, Repr

/-- The line sequence produced by the `try:` body of
`DeploymentManager.run_deployment`: each raw line is decoded and
right-trimmed and yielded in order; on non-zero exit exactly one sentinel
line `"ERROR: Deploy script exited with code <N>"` is yielded last; a fault
is converted into exactly one final `"ERROR: <msg>"` line. -/
def deploy_stream (beh : ProcBehavior) : List String :=
  match beh with
  | ProcBehavior.runs output exitCode =>
      output.map pyRstrip ++
        (if exitCode = 0 then []
         else ["ERROR: Deploy script exited with code " ++ toString exitCode])
  | ProcBehavior.faults output msg =>
      output.map pyRstrip ++ ["ERROR: " ++ msg]

/-- `DeploymentManager.run_deployment(environment, commit)`: validates the
environment against `_VALID_ENVS` and the commit against `_COMMIT_RE`
(letting the sentinel `"unknown"` through), raising `AssertionError` on
failure; otherwise produces the deploy line stream. -/
def run_deployment (environment commit : String) (beh : ProcBehavior) :
    Except DeployError (List String) :=
  if !(VALID_ENVS.contains environment) then
    Except.error (DeployError.invalidEnvironment environment)
  else if commit != "unknown" && !(commit_re_match commit) then
    Except.error (DeployError.invalidCommit commit)
  else
    Except.ok (deploy_stream beh)

/-- The line sequence produced by the `try:` body of
`DeploymentManager.run_rollback`. -/
def rollback_stream (beh : ProcBehavior) : List String :=
  match beh with
  | ProcBehavior.runs output exitCode =>
      output.map pyRstrip ++
        (if exitCode = 0 then []
         else ["ERROR: Rollback script exited with code " ++ toString exitCode])
  | ProcBehavior.faults output msg =>
      output.map pyRstrip ++ ["ERROR during rollback: " ++ msg]

/-- `DeploymentManager.run_rollback(environment)`: validates the environment,
then produces the rollback line stream. -/
def run_rollback (environment : String) (beh : ProcBehavior) :
    Except DeployError (List String) :=
  if !(VALID_ENVS.contains environment) then
    Except.error (DeployError.invalidEnvironment environment)
  else
    Except.ok (rollback_stream beh)

/-- Python `line.startswith(p)`: `p` is a prefix of the character sequence
of `line`. -/
def py_startswith (line p : String) : Bool :=
  p.data.isPrefixOf line.data

/-- `_is_error_line` in `bot.py`: sentinel check by exact prefix, never a
substring search. -/
def is_error_line (line : String) : Bool :=
  py_startswith line "ERROR:" || py_startswith line "ERROR during"

/-- The success flag computed by the streaming loops in `bot.py`
(`_run_deployment` and `cmd_rollback`): `success` starts `True` and is set
to `False` by every sentinel line; the fold mirrors the per-line update. -/
def run_outcome (lines : List String) : Bool :=
  lines.foldl (fun success line => if is_error_line line then false else success) true

/-- `config.Config`: the environment-derived configuration values consumed by
`DeploymentManager` (each field is the corresponding `os.environ` read in
`config.py`). -/
structure Config where
  REGISTRY_URL : String
  REGISTRY_IMAGE : String
  STAGING_HOST : String
  PRODUCTION_HOST : String
  DEPLOY_USER : String
  SSH_KEY_PATH : String
  KUBE_NAMESPACE : String
  USE_KUBERNETES : Bool
  AWS_REGION : String
  STAGING_HEALTH_URL : String
  PRODUCTION_HEALTH_URL : String
deriving Repr

/-- Python `str(bool).lower()` as used for `USE_KUBERNETES` in `_safe_env`. -/
def pyBoolStr (b : Bool) : String :=
  if b then "true" else "false"

/-- `DeploymentManager._safe_env`: the minimal subprocess environment, an
explicit association list with a fixed key set and a hardcoded `PATH`. -/
def safe_env (cfg : Config) : List (String × String) :=
  [("HOME", "/root"),
   ("PATH", "/usr/local/sbin:/usr/local/bin:/usr/sbin:/usr/bin:/sbin:/bin"),
   ("REGISTRY_URL", cfg.REGISTRY_URL),
   ("REGISTRY_IMAGE", cfg.REGISTRY_IMAGE),
   ("STAGING_HOST", cfg.STAGING_HOST),
   ("PRODUCTION_HOST", cfg.PRODUCTION_HOST),
   ("DEPLOY_USER", cfg.DEPLOY_USER),
   ("SSH_KEY_PATH", cfg.SSH_KEY_PATH),
   ("KUBE_NAMESPACE", cfg.KUBE_NAMESPACE),
   ("USE_KUBERNETES", pyBoolStr cfg.USE_KUBERNETES),
   ("AWS_REGION", cfg.AWS_REGION),
   ("STAGING_HEALTH_URL", cfg.STAGING_HEALTH_URL),
   ("PRODUCTION_HEALTH_URL", cfg.PRODUCTION_HEALTH_URL)]

/-- Does `needle` occur as a contiguous sublist of `hay`? -/
def listInfix (needle hay : List Char) : Bool :=
  match hay with
  | [] => needle.isEmpty
  | _ :: t => needle.isPrefixOf hay || listInfix needle t

/-- Substring test (`needle in hay` on Python strings). -/
def strContainsSub (hay needle : String) : Bool :=
  listInfix needle.data hay.data

/-- `_escape_html` in `bot.py`. -/
def escape_html (text : String) : String :=
  ((text.replace "&" "&amp;").replace "<" "&lt;").replace ">" "&gt;"

/-- The log-buffer batching of the streaming loops in `bot.py`: each line is
appended to a buffer, the buffer is flushed through `send_chunked` once it
holds 10 lines, and any non-empty remainder is flushed after the loop.
Returns the sequence of flushed batches. -/
def buffer_batches (lines : List String) : List (List String) :=
  let final := lines.foldl
    (fun (acc : List (List String) × List String) line =>
      let buf := acc.2 ++ [line]
      if 10 ≤ buf.length then (acc.1 ++ [buf], []) else (acc.1, buf))
    ([], [])
  if final.2.isEmpty then final.1 else final.1 ++ [final.2]

/-- Result of the command-layer deployment driver `_run_deployment` in
`bot.py`: the batches of lines forwarded to the chat, whether and for which
environment the automatic rollback ran, its forwarded batches, and the final
status message sent after the run. -/
structure DeployReport where
  deploy_messages : List (List String)
  rollback_invoked : Bool
  rollback_environment : Option String
  rollback_messages : List (List String)
  final_status : String
deriving Repr

/-- The post-validation logic of `_run_deployment` in `bot.py`: stream the
deploy lines (batched) while folding the per-line sentinel check into
`success`; on success send the success message; on failure invoke
`run_rollback` for the same environment, stream every rollback line
(batched), fold the sentinel check into `rollback_success`, and send the
corresponding auto-rollback status.  `rollbackOutput` maps an environment to
the line stream of `deploy_manager.run_rollback(environment)`. -/
def bot_run_deployment (environment commit : String) (deployLines : List String)
    (rollbackOutput : String → List String) : DeployReport :=
  if run_outcome deployLines then
    { deploy_messages := buffer_batches deployLines
      rollback_invoked := false
      rollback_environment := none
      rollback_messages := []
      final_status :=
        "✅ <b>Deployment to " ++ escape_html environment ++
          " succeeded!</b>\n🔖 Commit: <code>" ++ escape_html commit ++ "</code>" }
  else
    let rbLines := rollbackOutput environment
    { deploy_messages := buffer_batches deployLines
      rollback_invoked := true
      rollback_environment := some environment
      rollback_messages := buffer_batches rbLines
      final_status :=
        if run_outcome rbLines then "✅ Auto-rollback completed."
        else "❌ Auto-rollback also FAILED — manual intervention required!" }

/-- Outcome of one `subprocess.run(..., check=True)` call in the git helpers:
clean exit with captured stdout, a non-zero exit (which `check=True` turns
into `subprocess.CalledProcessError`), or any other exception (missing
binary, missing working directory, ...). -/
inductive GitResult where
  | completed (stdout : String)
  | calledProcessError
  | osError (msg : String)
deriving DecidableEq, Repr

/-- The argument vector `get_latest_commit` passes to `subprocess.run`:
the remote-tracking ref when a branch is given, `HEAD` otherwise. -/
def git_cmd_for (branch : Option String) : List String :=
  match branch with
  | some b => ["git", "rev-parse", "--short", "origin/" ++ b]
  | none => ["git", "rev-parse", "--short", "HEAD"]

/-- `DeploymentManager.get_latest_commit(branch)`: runs the git command and
strips the captured stdout; only `CalledProcessError` is caught and mapped
to `"unknown"` — any other exception propagates (modelled as
`Except.error`).  `git` maps an argument vector to the behaviour of
`subprocess.run` on it. -/
def get_latest_commit (branch : Option String)
    (git : List String → GitResult) : Except String String :=
  match git (git_cmd_for branch) with
  | GitResult.completed stdout => Except.ok (pyStrip stdout)
  | GitResult.calledProcessError => Except.ok "unknown"
  | GitResult.osError msg => Except.error msg

/-- `DeploymentManager._get_deployed_commit`: read
`/var/lib/deploybot/<environment>.commit`, strip it; a missing file
(`FileNotFoundError`) yields `"unknown"`. -/
def get_deployed_commit (fs : String → Option String) (environment : String) : String :=
  match fs ("/var/lib/deploybot/" ++ environment ++ ".commit") with
  | some content => pyStrip content
  | none => "unknown"

/-- `DeploymentManager._get_deployed_at`: read
`/var/lib/deploybot/<environment>.timestamp`; a missing file yields
`"never"`. -/
def get_deployed_at (fs : String → Option String) (environment : String) : String :=
  match fs ("/var/lib/deploybot/" ++ environment ++ ".timestamp") with
  | some content => pyStrip content
  | none => "never"

/-- `DeploymentManager._check_health`: `True` exactly when the GET on the
URL returns HTTP 200; any other status or any connection fault is `False`. -/
def check_health (http : String → Option Nat) (url : String) : Bool :=
  match http url with
  | some status => status == 200
  | none => false

/-- One environment entry of the dict built by `get_status`. -/
structure EnvStatus where
  health_url : String
  commit : String
  deployed_at : String
  healthy : Bool
deriving DecidableEq, Repr

/-- The dict returned by `get_status`, keyed `"staging"` / `"production"`. -/
structure StatusMap where
  staging : EnvStatus
  production : EnvStatus
deriving DecidableEq, Repr

/-- `DeploymentManager.get_status`: per environment, state-file reads plus
the health check on the configured URL. -/
def get_status (cfg : Config) (fs : String → Option String)
    (http : String → Option Nat) : StatusMap :=
  { staging :=
      { health_url := cfg.STAGING_HEALTH_URL
        commit := get_deployed_commit fs "staging"
        deployed_at := get_deployed_at fs "staging"
        healthy := check_health http cfg.STAGING_HEALTH_URL }
    production :=
      { health_url := cfg.PRODUCTION_HEALTH_URL
        commit := get_deployed_commit fs "production"
        deployed_at := get_deployed_at fs "production"
        healthy := check_health http cfg.PRODUCTION_HEALTH_URL } }

/-- An observable event of the health-check phase of `get_status`: the HTTP
request for an environment being issued, or its response arriving. -/
inductive HealthEvent where
  | request (environment : String)
  | response (environment : String)
deriving DecidableEq, Repr

/-- The event trace of the health-check phase of `get_status` as written:
`for env_name, info in envs.items(): info["healthy"] = await
self._check_health(session, ...)` iterates the dict in insertion order
(staging, production) and awaits each check before starting the next, so
each request is issued only after the previous response completed. -/
def get_status_health_trace : List HealthEvent :=
  (VALID_ENVS.map
    (fun environment => [HealthEvent.request environment, HealthEvent.response environment])).flatten

/-- A trace has the concurrent fan-out/join shape when every request is
issued before any response is awaited. -/
def concurrent_shape (trace : List HealthEvent) : Bool :=
  let isReq : HealthEvent → Bool := fun e =>
    match e with
    | HealthEvent.request _ => true
    | HealthEvent.response _ => false
  (trace.dropWhile isReq).all (fun e => isReq e = false)

/-- Split a character list at every occurrence of `sep`
(Python `raw.split(",")` at the character level). -/
def splitOnChar (sep : Char) (l : List Char) : List (List Char) :=
  match l with
  | [] => [[]]
  | c :: rest =>
      let r := splitOnChar sep rest
      if c = sep then [] :: r
      else
        match r with
        | [] => [[c]]
        | h :: t => (c :: h) :: t

/-- `str.strip()` on a character list. -/
def listStrip (l : List Char) : List Char :=
  ((l.dropWhile isPyWhitespace).reverse.dropWhile isPyWhitespace).reverse

/-- Python `str.isdigit()` restricted to ASCII, as used on the trimmed id
fragments in `Config._parse_ids`. -/
def pyIsdigit (l : List Char) : Bool :=
  !l.isEmpty && l.all Char.isDigit

/-- `int(part)` on an all-digit character list. -/
def digitsToNat (l : List Char) : ℕ :=
  l.foldl (fun acc c => acc * 10 + (c.toNat - Char.toNat '0')) 0

/-- `Config._parse_ids`: split on commas, strip each part, keep the parts
that are all digits as integers (collected as a set). -/
def parse_ids (raw : String) : Finset ℕ :=
  (((splitOnChar ',' raw.data).map listStrip).filterMap
    (fun part => if pyIsdigit part then some (digitsToNat part) else none)).toFinset

/-- `Config.admin_ids()`: parsed from `ADMIN_TELEGRAM_IDS`. -/
def admin_ids (env : String → String) : Finset ℕ :=
  parse_ids (env "ADMIN_TELEGRAM_IDS")

/-- `Config.staging_ids()`: parsed from `STAGING_TELEGRAM_IDS`, unioned with
the admins. -/
def staging_ids (env : String → String) : Finset ℕ :=
  parse_ids (env "STAGING_TELEGRAM_IDS") ∪ admin_ids env

/-- `Config.is_admin(user_id)`. -/
def is_admin (env : String → String) (user_id : ℕ) : Bool :=
  user_id ∈ admin_ids env

/-- `Config.is_authorized(user_id)`. -/
def is_authorized (env : String → String) (user_id : ℕ) : Bool :=
  user_id ∈ staging_ids env

/-- `rbac.Role`. -/
inductive Role where
  | STAGING
  | ADMIN
deriving DecidableEq, Repr

/-- The authorization decision of the `require_role` wrapper in `rbac.py`:
`STAGING` gates on `Config.is_authorized`, `ADMIN` on `Config.is_admin`. -/
def require_role_check (env : String → String) (role : Role) (user_id : ℕ) : Bool :=
  match role with
  | Role.STAGING => is_authorized env user_id
  | Role.ADMIN => is_admin env user_id

/-! ## Helper lemmas -/

theorem listIsPrefixOf_self_append (l r : List Char) : l.isPrefixOf (l ++ r) = true := by
  rw [List.isPrefixOf_iff_prefix]
  exact List.prefix_append l r

theorem py_startswith_of_data_eq (line p : String) (rest : List Char)
    (h : line.data = p.data ++ rest) : py_startswith line p = true := by
  rw [py_startswith, h]
  exact listIsPrefixOf_self_append p.data rest

theorem is_error_line_fault (msg : String) :
    is_error_line ("ERROR: " ++ msg) = true := by
  have h : py_startswith ("ERROR: " ++ msg) "ERROR:" = true :=
    py_startswith_of_data_eq _ _ (' ' :: msg.data) rfl
  simp [is_error_line, h]

theorem is_error_line_deploy_exit (code : Int) :
    is_error_line ("ERROR: Deploy script exited with code " ++ toString code) = true := by
  have h : py_startswith ("ERROR: Deploy script exited with code " ++ toString code)
      "ERROR:" = true :=
    py_startswith_of_data_eq _ _
      (" Deploy script exited with code ".data ++ (toString code).data) rfl
  simp [is_error_line, h]

theorem is_error_line_rollback_exit (code : Int) :
    is_error_line ("ERROR: Rollback script exited with code " ++ toString code) = true := by
  have h : py_startswith ("ERROR: Rollback script exited with code " ++ toString code)
      "ERROR:" = true :=
    py_startswith_of_data_eq _ _
      (" Rollback script exited with code ".data ++ (toString code).data) rfl
  simp [is_error_line, h]

theorem is_error_line_rollback_fault (msg : String) :
    is_error_line ("ERROR during rollback: " ++ msg) = true := by
  have h : py_startswith ("ERROR during rollback: " ++ msg) "ERROR during" = true :=
    py_startswith_of_data_eq _ _ (" rollback: ".data ++ msg.data) rfl
  simp [is_error_line, h]

theorem run_outcome_foldl (xs : List String) (b : Bool) :
    xs.foldl (fun success line => if is_error_line line then false else success) b
      = (b && xs.all (fun line => !(is_error_line line))) := by
  induction xs generalizing b with
  | nil => simp
  | cons x xs ih =>
    simp only [List.foldl_cons, List.all_cons, ih]
    cases h : is_error_line x <;> simp [h]

theorem run_outcome_eq_all (lines : List String) :
    run_outcome lines = lines.all (fun line => !(is_error_line line)) := by
  rw [run_outcome, run_outcome_foldl, Bool.true_and]

theorem run_outcome_false_iff (lines : List String) :
    run_outcome lines = false ↔ ∃ line ∈ lines, is_error_line line = true := by
  rw [run_outcome_eq_all]
  simp [List.all_eq_true]

theorem run_outcome_concat_error (xs : List String) (e : String)
    (he : is_error_line e = true) : run_outcome (xs ++ [e]) = false := by
  rw [run_outcome_false_iff]
  exact ⟨e, by simp, he⟩

theorem buffer_batches_foldl (lines : List String)
    (acc : List (List String)) (buf : List String) :
    ((lines.foldl
      (fun (acc : List (List String) × List String) line =>
        let buf := acc.2 ++ [line]
        if 10 ≤ buf.length then (acc.1 ++ [buf], []) else (acc.1, buf))
      (acc, buf)).1).flatten ++
    (lines.foldl
      (fun (acc : List (List String) × List String) line =>
        let buf := acc.2 ++ [line]
        if 10 ≤ buf.length then (acc.1 ++ [buf], []) else (acc.1, buf))
      (acc, buf)).2
      = acc.flatten ++ buf ++ lines := by
  induction lines generalizing acc buf with
  | nil => simp
  | cons l ls ih =>
    simp only [List.foldl_cons]
    by_cases h : 10 ≤ (buf ++ [l]).length
    · simp only [h, if_pos]
      rw [ih]
      simp
    · simp only [h, if_neg, not_false_iff]
      rw [ih]
      simp

theorem buffer_batches_flatten (lines : List String) :
    (buffer_batches lines).flatten = lines := by
  rw [buffer_batches]
  have h := buffer_batches_foldl lines [] []
  simp only [List.flatten_nil, List.nil_append] at h
  set final := lines.foldl
    (fun (acc : List (List String) × List String) line =>
      let buf := acc.2 ++ [line]
      if 10 ≤ buf.length then (acc.1 ++ [buf], []) else (acc.1, buf))
    (([] : List (List String)), ([] : List String)) with hfinal
  by_cases he : final.2.isEmpty
  · rw [if_pos he]
    rw [List.isEmpty_iff] at he
    rw [he] at h
    simpa using h
  · rw [if_neg he]
    rw [List.flatten_append]
    simpa using h

/-! ## Claims -/

/-- C1: for every stream consumed by the command layer, the computed outcome
is Failure (the `success` flag ends `false`) iff at least one emitted line
starts with the exact prefix `"ERROR:"` or the prefix `"ERROR during"`; and
the line `"[INFO] Checking ERROR.log for issues"`, which merely mentions
failure words, is never classified as a failure sentinel and alone never
makes the outcome Failure. -/
theorem sentinel_outcome_iff_error_start (lines : List String) :
    (run_outcome lines = false ↔
      ∃ line ∈ lines,
        (py_startswith line "ERROR:" || py_startswith line "ERROR during") = true) ∧
    is_error_line "[INFO] Checking ERROR.log for issues" = false ∧
    run_outcome ["[INFO] Checking ERROR.log for issues"] = true := by
  refine ⟨?_, by decide, by decide⟩
  simpa [is_error_line] using run_outcome_false_iff lines

/-- C2: a Deploy run whose subprocess writes `output` and exits with `code`
yields exactly the decoded, right-trimmed lines in order; when `code ≠ 0` it
yields exactly one additional line `"ERROR: Deploy script exited with code
<code>"` as the last element, and when `code = 0` no additional line. -/
theorem deploy_stream_lines_and_exit_sentinel (environment commit : String)
    (output : List String) (code : Int)
    (henv : VALID_ENVS.contains environment = true)
    (hcommit : commit = "unknown" ∨ commit_re_match commit = true) :
    run_deployment environment commit (ProcBehavior.runs output code) =
      Except.ok (output.map pyRstrip ++
        (if code = 0 then []
         else ["ERROR: Deploy script exited with code " ++ toString code])) ∧
    (code ≠ 0 →
      (output.map pyRstrip ++
        (if code = 0 then []
         else ["ERROR: Deploy script exited with code " ++ toString code])).getLast?
        = some ("ERROR: Deploy script exited with code " ++ toString code)) := by
  have hmem : environment ∈ VALID_ENVS := by simpa using henv
  constructor
  · rcases hcommit with h | h <;>
      simp [run_deployment, hmem, h, deploy_stream]
  · intro hc
    rw [if_neg hc]
    exact List.getLast?_concat _

/-- Closed witness for C2 at the spec's example input. -/
theorem deploy_stream_lines_and_exit_sentinel_witness :
    run_deployment "staging" "abc1234" (ProcBehavior.runs ["Deploying...\n"] 1) =
      Except.ok ["Deploying...", "ERROR: Deploy script exited with code 1"] := by
  have h := (deploy_stream_lines_and_exit_sentinel "staging" "abc1234"
    ["Deploying...\n"] 1 (by decide) (Or.inr (by decide))).1
  exact h.trans (by rfl)

/-- C3: a launch or read fault in Deploy or Rollback is converted into
exactly one sentinel line appended to the lines already produced —
`"ERROR: <msg>"` for Deploy, `"ERROR during rollback: <msg>"` for Rollback —
the outcome over the resulting stream is Failure, and the operation returns
its stream normally (no unhandled exception reaches the caller). -/
theorem fault_yields_sentinel_and_failure (environment commit msg : String)
    (output : List String)
    (henv : VALID_ENVS.contains environment = true)
    (hcommit : commit = "unknown" ∨ commit_re_match commit = true) :
    run_deployment environment commit (ProcBehavior.faults output msg) =
      Except.ok (output.map pyRstrip ++ ["ERROR: " ++ msg]) ∧
    run_outcome (output.map pyRstrip ++ ["ERROR: " ++ msg]) = false ∧
    run_rollback environment (ProcBehavior.faults output msg) =
      Except.ok (output.map pyRstrip ++ ["ERROR during rollback: " ++ msg]) ∧
    run_outcome (output.map pyRstrip ++ ["ERROR during rollback: " ++ msg]) = false := by
  have hmem : environment ∈ VALID_ENVS := by simpa using henv
  refine ⟨?_, ?_, ?_, ?_⟩
  · rcases hcommit with h | h <;>
      simp [run_deployment, hmem, h, deploy_stream]
  · exact run_outcome_concat_error _ _ (is_error_line_fault msg)
  · simp [run_rollback, hmem, rollback_stream]
  · exact run_outcome_concat_error _ _ (is_error_line_rollback_fault msg)

/-- Closed witness for C3: a Deploy whose launch raises with no output
yields the single sentinel line and a Failure outcome. -/
theorem fault_yields_sentinel_and_failure_witness :
    run_deployment "staging" "abc1234"
        (ProcBehavior.faults [] "FileNotFoundError: deploy.sh") =
      Except.ok ["ERROR: FileNotFoundError: deploy.sh"] ∧
    run_outcome ["ERROR: FileNotFoundError: deploy.sh"] = false := by
  have h := fault_yields_sentinel_and_failure "staging" "abc1234"
    "FileNotFoundError: deploy.sh" [] (by decide) (Or.inr (by decide))
  exact ⟨h.1, h.2.1⟩

/-- C4: Deploy rejects, with a hard error independent of any subprocess
behaviour (so before any launch, never swallowed), every environment outside
`{"staging", "production"}` (`InvalidEnvironment`) and every commit that is
neither the literal `"unknown"` nor a match of `^[0-9a-f]{4,40}$`
(`InvalidCommit`); the commit `"unknown"` always passes validation. -/
theorem validation_rejects_before_launch (environment commit : String)
    (beh : ProcBehavior) :
    (VALID_ENVS.contains environment = false →
      run_deployment environment commit beh =
        Except.error (DeployError.invalidEnvironment environment)) ∧
    (VALID_ENVS.contains environment = true → commit ≠ "unknown" →
      commit_re_match commit = false →
      run_deployment environment commit beh =
        Except.error (DeployError.invalidCommit commit)) ∧
    (VALID_ENVS.contains environment = true →
      run_deployment environment "unknown" beh = Except.ok (deploy_stream beh)) := by
  refine ⟨?_, ?_, ?_⟩
  · intro h
    simp only [run_deployment, h, Bool.not_false, if_pos]
  · intro henv hne hre
    have hmem : environment ∈ VALID_ENVS := by simpa using henv
    simp [run_deployment, hmem, hne, hre]
  · intro henv
    have hmem : environment ∈ VALID_ENVS := by simpa using henv
    simp [run_deployment, hmem]

/-- Closed witness for C4: a shell-metacharacter environment and an
injection-style commit are both rejected, and `"unknown"` passes. -/
theorem validation_rejects_before_launch_witness :
    run_deployment "staging; rm -rf /" "abc1234" (ProcBehavior.runs [] 0) =
      Except.error (DeployError.invalidEnvironment "staging; rm -rf /") ∧
    run_deployment "staging" "abc1234; rm -rf /" (ProcBehavior.runs [] 0) =
      Except.error (DeployError.invalidCommit "abc1234; rm -rf /") ∧
    run_deployment "staging" "unknown" (ProcBehavior.runs [] 0) =
      Except.ok (deploy_stream (ProcBehavior.runs [] 0)) :=
  ⟨(validation_rejects_before_launch "staging; rm -rf /" "abc1234"
      (ProcBehavior.runs [] 0)).1 (by decide),
   (validation_rejects_before_launch "staging" "abc1234; rm -rf /"
      (ProcBehavior.runs [] 0)).2.1 (by decide) (by decide) (by decide),
   (validation_rejects_before_launch "staging" "unknown"
      (ProcBehavior.runs [] 0)).2.2 (by decide)⟩

/-- C5: the subprocess environment has exactly the fixed, enumerated key
set, never a bot/chat token key or a VCS token key, and its PATH value is
the hardcoded constant, which contains neither a tilde nor a reference to
HOME. -/
theorem safe_env_fixed_keys_no_secrets (cfg : Config) :
    (safe_env cfg).map Prod.fst =
      ["HOME", "PATH", "REGISTRY_URL", "REGISTRY_IMAGE", "STAGING_HOST",
       "PRODUCTION_HOST", "DEPLOY_USER", "SSH_KEY_PATH", "KUBE_NAMESPACE",
       "USE_KUBERNETES", "AWS_REGION", "STAGING_HEALTH_URL",
       "PRODUCTION_HEALTH_URL"] ∧
    ((safe_env cfg).map Prod.fst).contains "TELEGRAM_BOT_TOKEN" = false ∧
    ((safe_env cfg).map Prod.fst).contains "GITHUB_TOKEN" = false ∧
    (safe_env cfg).lookup "PATH" =
      some "/usr/local/sbin:/usr/local/bin:/usr/sbin:/usr/bin:/sbin:/bin" ∧
    strContainsSub "/usr/local/sbin:/usr/local/bin:/usr/sbin:/usr/bin:/sbin:/bin"
      "~" = false ∧
    strContainsSub "/usr/local/sbin:/usr/local/bin:/usr/sbin:/usr/bin:/sbin:/bin"
      "$HOME" = false :=
  ⟨rfl, rfl, rfl, rfl, by decide, by decide⟩

/-- C6: whenever the Deploy stream yields a Failure outcome, the command
layer invokes Rollback for the same environment, forwards every rollback
line to the operator-facing stream (the flushed batches concatenate to the
full rollback output, nothing discarded), and reports a distinct final
status depending on whether the rollback stream contained a failure
sentinel. -/
theorem auto_rollback_on_failure (environment commit : String)
    (deployLines : List String) (rollbackOutput : String → List String)
    (hfail : run_outcome deployLines = false) :
    (bot_run_deployment environment commit deployLines rollbackOutput).rollback_invoked
      = true ∧
    (bot_run_deployment environment commit deployLines rollbackOutput).rollback_environment
      = some environment ∧
    (bot_run_deployment environment commit deployLines rollbackOutput).rollback_messages.flatten
      = rollbackOutput environment ∧
    ((bot_run_deployment environment commit deployLines rollbackOutput).final_status
        = "✅ Auto-rollback completed." ↔
      run_outcome (rollbackOutput environment) = true) ∧
    ((bot_run_deployment environment commit deployLines rollbackOutput).final_status
        = "❌ Auto-rollback also FAILED — manual intervention required!" ↔
      run_outcome (rollbackOutput environment) = false) := by
  refine ⟨?_, ?_, ?_, ?_, ?_⟩ <;>
    simp only [bot_run_deployment, hfail, Bool.false_eq_true, if_false]
  · exact buffer_batches_flatten _
  · cases h : run_outcome (rollbackOutput environment) <;> simp [h]
  · cases h : run_outcome (rollbackOutput environment) <;> simp [h]

/-- Closed witness for C6: a failed deploy triggers a rollback for the same
environment whose two output lines are both forwarded, with the completed
status. -/
theorem auto_rollback_on_failure_witness :
    (bot_run_deployment "staging" "abc1234"
        ["ERROR: Deploy script exited with code 1"]
        (fun _ => ["Rolling back", "Done"])).rollback_invoked = true ∧
    (bot_run_deployment "staging" "abc1234"
        ["ERROR: Deploy script exited with code 1"]
        (fun _ => ["Rolling back", "Done"])).rollback_messages.flatten
      = ["Rolling back", "Done"] ∧
    (bot_run_deployment "staging" "abc1234"
        ["ERROR: Deploy script exited with code 1"]
        (fun _ => ["Rolling back", "Done"])).final_status
      = "✅ Auto-rollback completed." := by
  have h := auto_rollback_on_failure "staging" "abc1234"
    ["ERROR: Deploy script exited with code 1"]
    (fun _ => ["Rolling back", "Done"]) (by decide)
  exact ⟨h.1, h.2.2.1, h.2.2.2.1.mpr (by decide)⟩

/-- C7 (observed code behaviour): the health-check phase of `get_status`
awaits each environment's check inside the `for` loop, so its issue/response
event trace is strictly sequential — the production request is only issued
after the staging response — and does not have the concurrent
fan-out-then-join shape in which every request precedes every response. -/
theorem get_status_health_checks_sequential :
    get_status_health_trace =
      [HealthEvent.request "staging", HealthEvent.response "staging",
       HealthEvent.request "production", HealthEvent.response "production"] ∧
    concurrent_shape get_status_health_trace = false := by
  exact ⟨rfl, by decide⟩

/-- C8 counterexample: a resolution failure that is not a non-zero git exit
(here the `FileNotFoundError` raised when the git binary or the working
directory is missing) is not mapped to `"unknown"` — it propagates. -/
theorem get_latest_commit_fault_propagates :
    get_latest_commit none
        (fun _ => GitResult.osError "FileNotFoundError: git not found")
      ≠ Except.ok "unknown" := by
  intro h
  simp [get_latest_commit, git_cmd_for] at h

/-- C8 (amended): with a branch, the commit is resolved via the
remote-tracking ref `origin/<branch>` — the git invocation is exactly
`git rev-parse --short origin/<branch>`, and the result depends only on the
behaviour of that command; and a failure signalled by a non-zero git exit
(`subprocess.CalledProcessError`) yields the sentinel `"unknown"` instead of
an exception. -/
theorem get_latest_commit_branch_and_exit_fallback (b : String)
    (git git2 : List String → GitResult) (branch : Option String) :
    git_cmd_for (some b) = ["git", "rev-parse", "--short", "origin/" ++ b] ∧
    (git ["git", "rev-parse", "--short", "origin/" ++ b]
        = git2 ["git", "rev-parse", "--short", "origin/" ++ b] →
      get_latest_commit (some b) git = get_latest_commit (some b) git2) ∧
    (git (git_cmd_for branch) = GitResult.calledProcessError →
      get_latest_commit branch git = Except.ok "unknown") := by
  refine ⟨rfl, ?_, ?_⟩
  · intro h
    simp only [get_latest_commit, git_cmd_for, h]
  · intro h
    simp only [get_latest_commit, h]

/-- Closed witness for C8's amended theorem: a branch-qualified lookup whose
git command exits non-zero yields `"unknown"`. -/
theorem get_latest_commit_branch_and_exit_fallback_witness :
    get_latest_commit (some "main") (fun _ => GitResult.calledProcessError)
      = Except.ok "unknown" :=
  (get_latest_commit_branch_and_exit_fallback "main"
    (fun _ => GitResult.calledProcessError)
    (fun _ => GitResult.calledProcessError) (some "main")).2.2 rfl

/-- C9: `get_status` is a total function of the modelled faults: a missing
state file yields commit `"unknown"` and deployed_at `"never"` rather than
an error, and each environment's health flag is true exactly when the GET on
its own configured URL returns HTTP 200 — any other status or a connection
fault yields `false`, so one unreachable environment never prevents
reporting on the other. -/
theorem status_prober_defaults_and_health (cfg : Config)
    (fs : String → Option String) (http : String → Option Nat) :
    (fs "/var/lib/deploybot/staging.commit" = none →
      (get_status cfg fs http).staging.commit = "unknown") ∧
    (fs "/var/lib/deploybot/staging.timestamp" = none →
      (get_status cfg fs http).staging.deployed_at = "never") ∧
    (fs "/var/lib/deploybot/production.commit" = none →
      (get_status cfg fs http).production.commit = "unknown") ∧
    (fs "/var/lib/deploybot/production.timestamp" = none →
      (get_status cfg fs http).production.deployed_at = "never") ∧
    ((get_status cfg fs http).staging.healthy = true ↔
      http cfg.STAGING_HEALTH_URL = some 200) ∧
    ((get_status cfg fs http).production.healthy = true ↔
      http cfg.PRODUCTION_HEALTH_URL = some 200) := by
  refine ⟨?_, ?_, ?_, ?_, ?_, ?_⟩
  · intro h
    simp [get_status, get_deployed_commit, h]
  · intro h
    simp [get_status, get_deployed_at, h]
  · intro h
    simp [get_status, get_deployed_commit, h]
  · intro h
    simp [get_status, get_deployed_at, h]
  · simp only [get_status, check_health]
    cases h : http cfg.STAGING_HEALTH_URL <;> simp [h]
  · simp only [get_status, check_health]
    cases h : http cfg.PRODUCTION_HEALTH_URL <;> simp [h]

/-- Closed witness for C9 at the spec's example: no state files, staging
responding 200, production refusing connections. -/
theorem status_prober_defaults_and_health_witness :
    (get_status
        { REGISTRY_URL := "", REGISTRY_IMAGE := "myapp", STAGING_HOST := "",
          PRODUCTION_HOST := "", DEPLOY_USER := "deploy",
          SSH_KEY_PATH := "/app/secrets/deploy_key", KUBE_NAMESPACE := "default",
          USE_KUBERNETES := false, AWS_REGION := "us-east-1",
          STAGING_HEALTH_URL := "http://staging.example.com/health",
          PRODUCTION_HEALTH_URL := "http://production.example.com/health" }
        (fun _ => none)
        (fun url => if url = "http://staging.example.com/health" then some 200 else none)).staging.commit
      = "unknown" ∧
    (get_status
        { REGISTRY_URL := "", REGISTRY_IMAGE := "myapp", STAGING_HOST := "",
          PRODUCTION_HOST := "", DEPLOY_USER := "deploy",
          SSH_KEY_PATH := "/app/secrets/deploy_key", KUBE_NAMESPACE := "default",
          USE_KUBERNETES := false, AWS_REGION := "us-east-1",
          STAGING_HEALTH_URL := "http://staging.example.com/health",
          PRODUCTION_HEALTH_URL := "http://production.example.com/health" }
        (fun _ => none)
        (fun url => if url = "http://staging.example.com/health" then some 200 else none)).staging.deployed_at
      = "never" ∧
    (get_status
        { REGISTRY_URL := "", REGISTRY_IMAGE := "myapp", STAGING_HOST := "",
          PRODUCTION_HOST := "", DEPLOY_USER := "deploy",
          SSH_KEY_PATH := "/app/secrets/deploy_key", KUBE_NAMESPACE := "default",
          USE_KUBERNETES := false, AWS_REGION := "us-east-1",
          STAGING_HEALTH_URL := "http://staging.example.com/health",
          PRODUCTION_HEALTH_URL := "http://production.example.com/health" }
        (fun _ => none)
        (fun url => if url = "http://staging.example.com/health" then some 200 else none)).staging.healthy
      = true ∧
    (get_status
        { REGISTRY_URL := "", REGISTRY_IMAGE := "myapp", STAGING_HOST := "",
          PRODUCTION_HOST := "", DEPLOY_USER := "deploy",
          SSH_KEY_PATH := "/app/secrets/deploy_key", KUBE_NAMESPACE := "default",
          USE_KUBERNETES := false, AWS_REGION := "us-east-1",
          STAGING_HEALTH_URL := "http://staging.example.com/health",
          PRODUCTION_HEALTH_URL := "http://production.example.com/health" }
        (fun _ => none)
        (fun url => if url = "http://staging.example.com/health" then some 200 else none)).production.healthy
      = false := by
  have h := status_prober_defaults_and_health
    { REGISTRY_URL := "", REGISTRY_IMAGE := "myapp", STAGING_HOST := "",
      PRODUCTION_HOST := "", DEPLOY_USER := "deploy",
      SSH_KEY_PATH := "/app/secrets/deploy_key", KUBE_NAMESPACE := "default",
      USE_KUBERNETES := false, AWS_REGION := "us-east-1",
      STAGING_HEALTH_URL := "http://staging.example.com/health",
      PRODUCTION_HEALTH_URL := "http://production.example.com/health" }
    (fun _ => none)
    (fun url => if url = "http://staging.example.com/health" then some 200 else none)
  refine ⟨h.1 rfl, h.2.1 rfl, h.2.2.2.2.1.mpr (by decide), ?_⟩
  have hiff := h.2.2.2.2.2
  cases hb : (get_status _ _ _).production.healthy
  · rfl
  · exact absurd (hiff.mp hb) (by decide)

/-- C10: for every environment configuration, the admin id set is a subset
of the staging id set (staging_ids unions in admin_ids), hence `is_admin`
implies `is_authorized` and every user passing the ADMIN gate of
`require_role` also passes its STAGING gate. -/
theorem admin_subset_staging_authorization (env : String → String) (user_id : ℕ) :
    admin_ids env ⊆ staging_ids env ∧
    (is_admin env user_id = true → is_authorized env user_id = true) ∧
    (require_role_check env Role.ADMIN user_id = true →
      require_role_check env Role.STAGING user_id = true) := by
  have hsub : admin_ids env ⊆ staging_ids env := Finset.subset_union_right
  have himp : is_admin env user_id = true → is_authorized env user_id = true := by
    intro h
    simp only [is_admin, decide_eq_true_eq] at h
    simp only [is_authorized, decide_eq_true_eq]
    exact hsub h
  exact ⟨hsub, himp, fun h => himp h⟩

/-- Closed witness for C10: a user listed only in `ADMIN_TELEGRAM_IDS`
passes both gates. -/
theorem admin_subset_staging_authorization_witness :
    is_authorized (fun key => if key = "ADMIN_TELEGRAM_IDS" then "42" else "") 42
      = true ∧
    require_role_check (fun key => if key = "ADMIN_TELEGRAM_IDS" then "42" else "")
      Role.STAGING 42 = true := by
  have h := admin_subset_staging_authorization
    (fun key => if key = "ADMIN_TELEGRAM_IDS" then "42" else "") 42
  exact ⟨h.2.1 (by decide), h.2.2 (by decide)⟩

/-- Closed witness for C1: a stream whose only failure-related text is the
`"[INFO] Checking ERROR.log for issues"` line has a Success outcome, while
one genuine sentinel line forces Failure. -/
theorem sentinel_outcome_iff_error_start_witness :
    run_outcome ["[INFO] Checking ERROR.log for issues"] = true ∧
    run_outcome ["Step 1", "ERROR: Deploy script exited with code 1"] = false :=
  ⟨(sentinel_outcome_iff_error_start ["[INFO] Checking ERROR.log for issues"]).2.2,
   (sentinel_outcome_iff_error_start
      ["Step 1", "ERROR: Deploy script exited with code 1"]).1.mpr
     ⟨"ERROR: Deploy script exited with code 1", by decide, by decide⟩⟩
